import Mathlib

/-!
Shallow embedding of the query-ranking pipeline and admission cache of the
search_engine_api repository (Rust, axum web service).

Conventions of the embedding:
* Rust integer types (i32, i64, u64, usize) are modelled as ℤ or ℕ.
* f32 arithmetic is modelled as exact arithmetic: ℚ where the source only
  divides (term frequencies), ℝ where the source takes logarithms and square
  roots (TF-IDF similarity).  A separate Option-valued "checked" similarity
  tracks the operations that would produce NaN in f32 (logarithm of a
  non-positive number, division by zero).
* HashMap values are modelled as association lists looked up with
  List.lookup; insertion removes any previous binding of the key.
* Static resources loaded at startup (the lemma table, the top-domains
  table) and the URL-host extractor from the url crate are parameters of
  the functions that consume them.
* The sort_by / sort_unstable_by calls of the source are modelled with
  List.insertionSort, a stable sort; the comparators of the source compare
  scores only, and for the concrete inputs appearing below (at most two
  elements) every Rust slice sort coincides with the stable sort.
-/

namespace SearchEngineApi

/-! ## Data model (database.rs) -/

/-- Model of the Keyword struct of database.rs: a word together with its
corpus-wide document frequency. -/
structure Keyword where
  id : ℤ
  word : String
  documents_containing_word : ℤ
deriving DecidableEq

/-- Model of the Webpage struct of database.rs.  The keywords HashMap is an
association list from keyword to in-document occurrence count. -/
structure Webpage where
  id : ℤ
  title : String
  url : String
  description : String
  word_count : ℤ
  keywords : List (Keyword × ℤ)
  links_to_count : Option ℕ
  links_from : Option (List (String × ℤ))
deriving DecidableEq

/-! ## Lexical normalizer (lemmatise.rs) -/

/-- Model of lemmatise_string of lemmatise.rs: lower-case the text, delete
every character matched by the regex [^a-zA-Z0-9\s] (i.e. keep ASCII
alphanumerics and whitespace), split on whitespace, and replace each token
by its lemma-table entry when present.  The static LEMMA_MAP is the
parameter tbl. -/
def lemmatise_string (tbl : String → Option String) (text : String) : List String :=
  let lowered := text.toList.map Char.toLower
  let no_punct := lowered.filter (fun c => c.isAlphanum || c.isWhitespace)
  let tokens := (no_punct.splitOnP (fun c => c.isWhitespace)).filter (fun t => !t.isEmpty)
  tokens.map (fun t => ((tbl (String.mk t)).getD (String.mk t)))

/-- Modelled from the spec (claim C6 wording): the sequence obtained by
lower-casing the text, removing every character that is not an ASCII
letter, digit, or whitespace, splitting on whitespace, and replacing each
token by its canonicalization-table entry when present and by the token
itself otherwise. -/
def lemmatise_claimed (tbl : String → Option String) (text : String) : List String :=
  let removed := (text.toList.map Char.toLower).filter
    (fun c => !(!(c.isAlpha || c.isDigit) && !c.isWhitespace))
  ((removed.splitOnP (fun c => c.isWhitespace)).filter (fun t => !t.isEmpty)).map
    (fun t => match tbl (String.mk t) with
      | some lemma_entry => lemma_entry
      | none => String.mk t)

/-! ## Term-frequency vectorizer (ranking.rs, calculate_query_term_frequencies) -/

/-- Model of calculate_query_term_frequencies of ranking.rs: count the
occurrences of each distinct query term and divide by the total number of
query terms.  The resulting HashMap is modelled as the association list
over the distinct terms in order of first appearance. -/
def calculate_query_term_frequencies (lemmatized_query : List String) : List (String × ℚ) :=
  lemmatized_query.dedup.map
    (fun word => (word, (lemmatized_query.count word : ℚ) / (lemmatized_query.length : ℚ)))

/-! ## Admission cache (TokenCache in main.rs; token_cache.rs is the same code) -/

/-- Model of the TokenCache struct: a map from token string to
(unix timestamp in seconds, ip string), as an association list with unique
keys. -/
structure TokenCache where
  tokens : List (String × (ℕ × String))
deriving DecidableEq

/-- Model of TokenCache::is_valid: the token is valid when a record exists
whose age (now - timestamp, u64 arithmetic modelled on ℕ with now at or
after the stored timestamp) is at most 120 seconds and whose stored ip
equals the caller ip. -/
def TokenCache.is_valid (c : TokenCache) (token ip : String) (now : ℕ) : Bool :=
  match c.tokens.lookup token with
  | some (timestamp, stored_ip) => decide (now - timestamp ≤ 120) && (stored_ip == ip)
  | none => false

/-- Model of TokenCache::add_token: HashMap::insert, i.e. replace any
previous record for the token with (now, ip). -/
def TokenCache.add_token (c : TokenCache) (token ip : String) (now : ℕ) : TokenCache :=
  ⟨(token, (now, ip)) :: c.tokens.filter (fun e => !(e.1 == token))⟩

/-- Model of TokenCache::clean_old_tokens: retain exactly the records whose
age is at most 120 seconds. -/
def TokenCache.clean_old_tokens (c : TokenCache) (now : ℕ) : TokenCache :=
  ⟨c.tokens.filter (fun e => decide (now - e.2.1 ≤ 120))⟩

/-- Outcome of the admission section of the search handler
(main.rs lines 156-173). -/
structure AdmissionResult where
  admitted : Bool
  verifier_called : Bool
  cache : TokenCache
deriving DecidableEq

/-- Model of the admission section of the search handler: on a cache hit,
admit without calling the verifier and then clean old tokens; on a miss,
call the external verifier (its boolean outcome is the parameter verify);
on verification success add the token and clean old tokens; on verification
failure return the error response immediately, leaving the cache untouched
(the early return at main.rs line 162 skips clean_old_tokens). -/
def admission_check (c : TokenCache) (token ip : String) (now : ℕ) (verify : Bool) :
    AdmissionResult :=
  if c.is_valid token ip now then
    ⟨true, false, c.clean_old_tokens now⟩
  else if verify then
    ⟨true, true, (c.add_token token ip now).clean_old_tokens now⟩
  else
    ⟨false, true, c⟩

/-! ## Similarity scorer (ranking.rs, calculate_similarity) -/

/-- Model of the idf computed at ranking.rs line 56:
((document_count as f32) / (documents_containing_word as f32)).ln().max(0.0). -/
noncomputable def idf (document_count df : ℤ) : ℝ :=
  max (Real.log ((document_count : ℝ) / (df : ℝ))) 0

/-- Contributions of the loop of calculate_similarity: for each keyword of
the document whose word occurs in the query vector, the pair
(query_tf_idf, tf_idf).  Keywords absent from the query vector add nothing
to any of the three accumulators. -/
noncomputable def contribs (document_count word_count : ℤ) (kws : List (Keyword × ℤ))
    (query_term_tfs : List (String × ℚ)) : List (ℝ × ℝ) :=
  kws.filterMap (fun p =>
    match query_term_tfs.lookup p.1.word with
    | some query_tf =>
      some ((query_tf : ℝ) * idf document_count p.1.documents_containing_word,
            ((p.2 : ℝ) / (word_count : ℝ)) * idf document_count p.1.documents_containing_word)
    | none => none)

/-- Model of calculate_similarity of ranking.rs: accumulate the squared
query weights, squared document weights and the dot product over the
keywords shared with the query vector, and divide the dot product by the
product of the square roots of the two norms when both are positive,
returning 0 otherwise. -/
noncomputable def calculate_similarity (website : Webpage)
    (query_term_tfs : List (String × ℚ)) (document_count : ℤ) : ℝ :=
  let c := contribs document_count website.word_count website.keywords query_term_tfs
  let query_vector_sum := (c.map (fun p => p.1 ^ 2)).sum
  let document_vector_sum := (c.map (fun p => p.2 ^ 2)).sum
  let dot_product := (c.map (fun p => p.1 * p.2)).sum
  if Real.sqrt query_vector_sum > 0 ∧ Real.sqrt document_vector_sum > 0 then
    dot_product / (Real.sqrt query_vector_sum * Real.sqrt document_vector_sum)
  else 0

/-- Checked model of the tf computed at ranking.rs line 55: in f32 the
division (occurrences as f32) / (word_count as f32) is NaN-prone only when
the divisor is 0 (0/0 is NaN and a nonzero dividend gives an infinity that
can later turn into NaN); the checked version refuses a zero divisor. -/
noncomputable def tf_checked (occurrences word_count : ℤ) : Option ℝ :=
  if (word_count : ℝ) = 0 then none else some ((occurrences : ℝ) / (word_count : ℝ))

/-- Checked model of the idf of ranking.rs line 56: ln of a negative f32 is
NaN and a zero or infinite ratio is NaN-prone, so the checked version
demands a positive finite ratio, which over the exact model is
0 < document_count / df. -/
noncomputable def idf_checked (document_count df : ℤ) : Option ℝ :=
  if 0 < (document_count : ℝ) / (df : ℝ) then some (idf document_count df) else none

/-- Checked contributions: the loop of calculate_similarity computes tf and
idf for every keyword of the document (ranking.rs lines 55-56), so the
checked version demands that every keyword pass the checked tf and idf,
and collects the same contribution pairs as contribs. -/
noncomputable def contribs_checked (document_count word_count : ℤ) (kws : List (Keyword × ℤ))
    (query_term_tfs : List (String × ℚ)) : Option (List (ℝ × ℝ)) :=
  match kws with
  | [] => some []
  | p :: rest =>
    match tf_checked p.2 word_count,
          idf_checked document_count p.1.documents_containing_word,
          contribs_checked document_count word_count rest query_term_tfs with
    | some tf, some idf_val, some cs =>
      match query_term_tfs.lookup p.1.word with
      | some query_tf => some (((query_tf : ℝ) * idf_val, tf * idf_val) :: cs)
      | none => some cs
    | _, _, _ => none

/-- Checked model of calculate_similarity: returns none exactly when some
f32 step of the source computation is NaN-prone over the exact model; the
final division is already guarded by the positivity test of the source, so
it needs no further check. -/
noncomputable def calculate_similarity_checked (website : Webpage)
    (query_term_tfs : List (String × ℚ)) (document_count : ℤ) : Option ℝ :=
  match contribs_checked document_count website.word_count website.keywords query_term_tfs with
  | none => none
  | some c =>
    let query_vector_sum := (c.map (fun p => p.1 ^ 2)).sum
    let document_vector_sum := (c.map (fun p => p.2 ^ 2)).sum
    let dot_product := (c.map (fun p => p.1 * p.2)).sum
    some (if Real.sqrt query_vector_sum > 0 ∧ Real.sqrt document_vector_sum > 0 then
      dot_product / (Real.sqrt query_vector_sum * Real.sqrt document_vector_sum)
    else 0)

/-! ## Ranking and truncation (ranking.rs get_tf_idf_scores; main.rs lines 195-212) -/

/-- Descending-score comparator used by both sorts of the source: document
a precedes document b when the score of b is at most the score of a. -/
def score_desc (a b : ℝ × Webpage) : Prop := b.1 ≤ a.1

noncomputable instance : DecidableRel score_desc := fun a b => Real.decidableLE b.1 a.1

instance : IsTotal (ℝ × Webpage) score_desc := ⟨fun a b => le_total b.1 a.1⟩

instance : IsTrans (ℝ × Webpage) score_desc := ⟨fun _ _ _ h1 h2 => le_trans h2 h1⟩

/-- Model of get_tf_idf_scores of ranking.rs: score every candidate website
against the query vector and sort by score descending.  The source uses
sort_unstable_by; the model fixes the tie order with a stable sort. -/
noncomputable def get_tf_idf_scores (document_count : ℤ) (lemmatized_query : List String)
    (websites : List Webpage) : List (ℝ × Webpage) :=
  let query_term_tfs := calculate_query_term_frequencies lemmatized_query
  let website_similarities := websites.map
    (fun website => (calculate_similarity website query_term_tfs document_count, website))
  List.insertionSort score_desc website_similarities

/-- Model of the ranking stage of the search handler (main.rs lines
198-212): sort the scored documents by score descending (sort_by, a stable
sort), then truncate to count_score_one.max(num_results) when the top
score is exactly 1.0 and to num_results otherwise, where count_score_one
is the length of the leading run of documents scoring exactly 1.0. -/
noncomputable def rank_and_truncate (scored : List (ℝ × Webpage)) (num_results : ℕ) :
    List (ℝ × Webpage) :=
  let ranked := List.insertionSort score_desc scored
  let results_to_return :=
    match ranked.head? with
    | some p =>
      if p.1 = 1 then
        max ((ranked.takeWhile (fun q => decide (q.1 = (1 : ℝ)))).length) num_results
      else num_results
    | none => num_results
  ranked.take results_to_return

/-- Modelled from the spec (claim C1 wording): the size of the
high-relevance portion of the ranked list, the documents scoring at least
the 1.0 threshold; the claim asserts truncation to the minimum of this and
the requested bound. -/
noncomputable def claimed_high_relevance_count (scored : List (ℝ × Webpage)) : ℕ :=
  ((List.insertionSort score_desc scored).takeWhile (fun q => decide ((1 : ℝ) ≤ q.1))).length

/-- Modelled from the spec (claim C2 wording): comparison of optional
site-authority ranks where an absent rank counts as larger than every real
rank. -/
def rank_le (a b : Option ℕ) : Prop :=
  match a, b with
  | some r, some s => r ≤ s
  | some _, none => True
  | none, none => True
  | none, some _ => False

/-- Site-authority rank of a document: extract the host of its URL (the
host extractor of the url crate is the parameter extract_host) and look it
up in the static top-domains table. -/
def site_rank (extract_host : String → Option String) (top_domains : List (String × ℕ))
    (w : Webpage) : Option ℕ :=
  (extract_host w.url).bind (fun d => top_domains.lookup d)

/-- Modelled from the spec (claim C2 wording): every pair of equal-score
documents inside the high-relevance portion of the list is ordered by
site-authority rank ascending, an absent rank sorting last. -/
def claimed_tie_break_ordered (extract_host : String → Option String)
    (top_domains : List (String × ℕ)) (l : List (ℝ × Webpage)) : Prop :=
  l.Pairwise (fun a b => (1 : ℝ) ≤ a.1 → (1 : ℝ) ≤ b.1 → a.1 = b.1 →
    rank_le (site_rank extract_host top_domains a.2) (site_rank extract_host top_domains b.2))

/-! ## Result assembly (format_result in main.rs lines 284-326, and the
result_formatter.rs revision of the same function) -/

/-- Shape of one formatted result record.  An Option field set to none
models a key absent from the JSON object, except top_website_rank, where
the main.rs formatter always emits a number (modelled some n) and the
result_formatter.rs revision emits the Option itself (none serializes as
null, the explicit unranked marker). -/
structure FormattedResult where
  title : String
  url : String
  description : String
  score : ℝ
  keywords : List (String × ℤ)
  top_website_rank : Option ℕ
  links_to_count : Option ℕ
  links_from : Option (List (String × ℤ))

/-- Model of format_result of main.rs: the rank of a host absent from the
top-domains table is defaulted with unwrap_or_default() to the numeric 0;
link fields are added only when include_links is set and the corresponding
Option field of the webpage is populated. -/
def format_result_main (extract_host : String → Option String) (score : ℝ) (webpage : Webpage)
    (top_domains : List (String × ℕ)) (include_links : Bool) : FormattedResult :=
  { title := webpage.title
    url := webpage.url
    description := webpage.description
    score := score
    keywords := webpage.keywords.map (fun p => (p.1.word, p.2))
    top_website_rank := some ((site_rank extract_host top_domains webpage).getD 0)
    links_to_count := if include_links then webpage.links_to_count else none
    links_from := if include_links then webpage.links_from else none }

/-- Model of format_result of result_formatter.rs: identical to the main.rs
formatter except that the rank stays an Option (cloned(), no default), so
an absent host serializes as null. -/
def format_result_fmt (extract_host : String → Option String) (score : ℝ) (webpage : Webpage)
    (top_domains : List (String × ℕ)) (include_links : Bool) : FormattedResult :=
  { title := webpage.title
    url := webpage.url
    description := webpage.description
    score := score
    keywords := webpage.keywords.map (fun p => (p.1.word, p.2))
    top_website_rank := site_rank extract_host top_domains webpage
    links_to_count := if include_links then webpage.links_to_count else none
    links_from := if include_links then webpage.links_from else none }

/-! ## Request parameter extraction (search handler, main.rs lines 140-152) -/

/-- Outcome of the parameter-extraction preamble of the search handler.  A
panic models a Rust .expect() firing: the handler task unwinds and no JSON
body is produced. -/
inductive SearchOutcome where
  | panicked (msg : String)
  | errorResponse (msg : String)
  | proceed (query : String) (turnstile_token : String)
deriving DecidableEq

/-- Model of the parameter extraction of the search handler: the q
parameter and the token parameter are read with .expect(), which panics
when the parameter is missing; no error response is built on that path. -/
def search_extract (params : List (String × String)) : SearchOutcome :=
  match params.lookup "q" with
  | none => .panicked "Missing query parameter"
  | some q =>
    match params.lookup "token" with
    | none => .panicked "Missing Turnstile token"
    | some t => .proceed q t

/-! ## Concrete inputs used by witnesses and counterexamples -/

/-- Candidate document with no keywords, hosted on a.test. -/
def wpA : Webpage := ⟨1, "A", "https://a.test/", "a", 100, [], none, none⟩

/-- Candidate document with no keywords, hosted on b.test. -/
def wpB : Webpage := ⟨2, "B", "https://b.test/", "b", 100, [], none, none⟩

/-- Candidate document matching the worked example of the spec: word_count
100, the term run occurring 5 times, document frequency 3. -/
def wpRun : Webpage := ⟨3, "R", "https://r.test/", "r", 100, [(⟨7, "run", 3⟩, 5)], none, none⟩

/-- Host extractor treating the whole URL string as the host, sufficient
for exercising the authority-table lookup. -/
def hostId : String → Option String := fun u => some u

/-- Authority table ranking only the document wpB. -/
def domainsB : List (String × ℕ) := [("https://b.test/", 1)]

/-! ## General lemmas -/

/-- Values found by List.lookup are values of list members. -/
theorem lookup_nonneg {l : List (String × ℚ)} (hl : ∀ p ∈ l, 0 ≤ p.2) {a : String} {b : ℚ}
    (h : l.lookup a = some b) : 0 ≤ b := by
  induction l with
  | nil => simp [List.lookup] at h
  | cons p t ih =>
    rw [List.lookup] at h
    cases hpa : (a == p.1) with
    | true =>
      simp only [hpa] at h
      obtain rfl := Option.some.inj h
      exact hl p (by simp)
    | false =>
      simp only [hpa] at h
      exact ih (fun x hx => hl x (by simp [hx])) h

/-- Sum of a list after dividing every entry by a constant. -/
theorem list_sum_div (l : List ℚ) (c : ℚ) : (l.map (fun x => x / c)).sum = l.sum / c := by
  induction l with
  | nil => simp
  | cons a t ih => simp [ih, add_div]

/-- Cauchy-Schwarz inequality for a list of real pairs. -/
theorem list_inner_le_sqrt_mul_sqrt (l : List (ℝ × ℝ)) :
    (l.map (fun p => p.1 * p.2)).sum ≤
      Real.sqrt ((l.map (fun p => p.1 ^ 2)).sum) * Real.sqrt ((l.map (fun p => p.2 ^ 2)).sum) := by
  have key : ∀ h : ℝ × ℝ → ℝ, (l.map h).sum = ∑ i : Fin l.length, h (l.get i) := by
    intro h
    conv_lhs => rw [← List.ofFn_get l]
    rw [List.map_ofFn, List.sum_ofFn]
    rfl
  rw [key, key, key]
  exact Real.sum_mul_le_sqrt_mul_sqrt Finset.univ (fun i => (l.get i).1) (fun i => (l.get i).2)

end SearchEngineApi

namespace SearchEngineApi

/-! ## Claim theorems -/

/-- C3: a credential/origin pair registered in the admission cache at time
T is admitted at time T+119 without invoking external verification, and at
time T+121 with no intervening renewal the cache lookup reports the record
invalid, so re-verification is triggered. -/
theorem admission_cache_window (c : TokenCache) (token ip : String) (T : ℕ) (v : Bool)
    (h : c.tokens.lookup token = some (T, ip)) :
    (admission_check c token ip (T + 119) v).admitted = true ∧
    (admission_check c token ip (T + 119) v).verifier_called = false ∧
    c.is_valid token ip (T + 121) = false ∧
    (admission_check c token ip (T + 121) v).verifier_called = true := by
  have h119 : c.is_valid token ip (T + 119) = true := by
    unfold TokenCache.is_valid
    rw [h]
    have ht : T + 119 - T = 119 := by omega
    simp [ht]
  have h121 : c.is_valid token ip (T + 121) = false := by
    unfold TokenCache.is_valid
    rw [h]
    have ht : T + 121 - T = 121 := by omega
    simp [ht]
  refine ⟨?_, ?_, h121, ?_⟩
  · simp [admission_check, h119]
  · simp [admission_check, h119]
  · cases v <;> simp [admission_check, h121]

/-- Witness for C3 at a concrete cache. -/
theorem admission_cache_window_witness :
    (TokenCache.mk [("tok", (1000, "ip1"))]).tokens.lookup "tok" = some (1000, "ip1") ∧
    ((admission_check ⟨[("tok", (1000, "ip1"))]⟩ "tok" "ip1" (1000 + 119) false).admitted = true ∧
     (admission_check ⟨[("tok", (1000, "ip1"))]⟩ "tok" "ip1" (1000 + 119) false).verifier_called
        = false ∧
     (TokenCache.mk [("tok", (1000, "ip1"))]).is_valid "tok" "ip1" (1000 + 121) = false ∧
     (admission_check ⟨[("tok", (1000, "ip1"))]⟩ "tok" "ip1" (1000 + 121) false).verifier_called
        = true) :=
  ⟨by decide, admission_cache_window ⟨[("tok", (1000, "ip1"))]⟩ "tok" "ip1" 1000 false (by decide)⟩

/-- C4 counterexample: when the external verification fails, the handler
returns early and the stale record of age 200 seconds survives in the
cache, so the purge does not happen after every check. -/
theorem admission_failure_skips_purge_cex :
    (admission_check ⟨[("old", (0, "a"))]⟩ "tok" "b" 200 false).cache.tokens
      = [("old", (0, "a"))] ∧ ¬(200 - 0 ≤ 120) := by decide

/-- C4 amended: after every admission check that admits (cache hit or
successful verification), all records older than the validity window have
been purged from the cache. -/
theorem admission_purges_when_admitted (c : TokenCache) (token ip : String) (now : ℕ)
    (verify : Bool) (h : (admission_check c token ip now verify).admitted = true) :
    ∀ e ∈ (admission_check c token ip now verify).cache.tokens, now - e.2.1 ≤ 120 := by
  intro e he
  by_cases hv : c.is_valid token ip now
  · simp only [admission_check, hv, if_true] at he
    simp [TokenCache.clean_old_tokens, List.mem_filter] at he
    obtain ⟨-, h2⟩ := he
    omega
  · simp only [admission_check, hv, Bool.false_eq_true, if_false] at h he
    cases hverify : verify
    · rw [hverify] at h
      simp at h
    · rw [hverify] at he
      simp [TokenCache.clean_old_tokens, List.mem_filter] at he
      obtain ⟨-, h2⟩ := he
      omega

/-- Witness for C4 amended: a successful verification purges the stale
record. -/
theorem admission_purges_when_admitted_witness :
    (admission_check ⟨[("old", (0, "a"))]⟩ "tok" "b" 200 true).admitted = true ∧
    (∀ e ∈ (admission_check ⟨[("old", (0, "a"))]⟩ "tok" "b" 200 true).cache.tokens,
      200 - e.2.1 ≤ 120) :=
  ⟨by decide, admission_purges_when_admitted ⟨[("old", (0, "a"))]⟩ "tok" "b" 200 true (by decide)⟩

/-- C6: the lexical normalizer produces exactly the sequence obtained by
lower-casing, removing every character that is not an ASCII letter, digit
or whitespace, splitting on whitespace, and canonicalizing each token
through the table, preserving duplicates and order. -/
theorem lemmatise_string_matches_claim (tbl : String → Option String) (text : String) :
    lemmatise_string tbl text = lemmatise_claimed tbl text := by
  unfold lemmatise_string lemmatise_claimed
  have hpred : (fun c : Char => c.isAlphanum || c.isWhitespace) =
      (fun c : Char => !(!(c.isAlpha || c.isDigit) && !c.isWhitespace)) := by
    funext c
    simp [Char.isAlphanum]
  rw [hpred]
  have hmap : (fun t : List Char => ((tbl (String.mk t)).getD (String.mk t))) =
      (fun t : List Char => match tbl (String.mk t) with
        | some lemma_entry => lemma_entry
        | none => String.mk t) := by
    funext t
    cases tbl (String.mk t) <;> rfl
  rw [hmap]

/-- C7 counterexample: a request with no query parameter makes the handler
panic through .expect() instead of producing a client-visible error
response. -/
theorem search_extract_missing_query_cex :
    search_extract [("links", "true")] = .panicked "Missing query parameter" ∧
    ∀ msg, search_extract [("links", "true")] ≠ .errorResponse msg := by
  refine ⟨rfl, fun msg h => ?_⟩
  rw [show search_extract [("links", "true")] = .panicked "Missing query parameter" from rfl] at h
  exact SearchOutcome.noConfusion h

/-- C7 amended: a request missing the required query text or the required
credential is rejected before any pipeline work, but by a handler panic
(the task unwinds), not by a client-visible error response. -/
theorem search_extract_panics_on_missing (params : List (String × String)) :
    (params.lookup "q" = none → search_extract params = .panicked "Missing query parameter") ∧
    (∀ q, params.lookup "q" = some q → params.lookup "token" = none →
      search_extract params = .panicked "Missing Turnstile token") := by
  constructor
  · intro h
    simp [search_extract, h]
  · intro q hq ht
    simp [search_extract, hq, ht]

/-- Witness for C7 amended at concrete parameter lists, discharging both
antecedents. -/
theorem search_extract_panics_on_missing_witness :
    search_extract [("links", "true")] = .panicked "Missing query parameter" ∧
    search_extract [("q", "cats")] = .panicked "Missing Turnstile token" :=
  ⟨(search_extract_panics_on_missing [("links", "true")]).1 (by decide),
   (search_extract_panics_on_missing [("q", "cats")]).2 "cats" (by decide) (by decide)⟩

/-- C9: the term-frequency vectorizer returns the empty mapping on the
empty token sequence, and on every non-empty sequence its values sum to
exactly 1 in the exact-arithmetic model. -/
theorem query_term_frequencies_sum (q : List String) :
    (q = [] → calculate_query_term_frequencies q = []) ∧
    (q ≠ [] → ((calculate_query_term_frequencies q).map Prod.snd).sum = 1) := by
  constructor
  · rintro rfl
    rfl
  · intro hne
    unfold calculate_query_term_frequencies
    rw [List.map_map]
    rw [show (Prod.snd ∘ fun word => (word, (q.count word : ℚ) / (q.length : ℚ)))
      = (fun x : ℚ => x / (q.length : ℚ)) ∘ (fun word => ((q.count word : ℚ))) from rfl]
    rw [← List.map_map, list_sum_div]
    rw [show (fun word => ((q.count word : ℚ))) = (fun n : ℕ => (n : ℚ)) ∘ (fun word => q.count word)
      from rfl]
    rw [← List.map_map, ← Nat.cast_list_sum, List.sum_map_count_dedup_eq_length, div_self]
    exact Nat.cast_ne_zero.mpr (fun hz => hne (List.length_eq_zero.mp hz))

/-- Witness for C9 at concrete queries, discharging both antecedents. -/
theorem query_term_frequencies_sum_witness :
    calculate_query_term_frequencies [] = [] ∧
    ((calculate_query_term_frequencies ["a", "b", "a"]).map Prod.snd).sum = 1 :=
  ⟨(query_term_frequencies_sum []).1 rfl,
   (query_term_frequencies_sum ["a", "b", "a"]).2 (by decide)⟩

/-- C1 counterexample: with a single document scoring 0.5 and requested
bound 3, the claim demands min(high-relevance-count, 3) = 0 results, but
the code returns the document: num_results documents are returned below
the threshold, not an empty set. -/
theorem rank_below_threshold_not_empty_cex :
    (rank_and_truncate [((1 : ℝ)/2, wpA)] 3).length = 1 ∧
    min (claimed_high_relevance_count [((1 : ℝ)/2, wpA)]) 3 = 0 := by
  have hsort : List.insertionSort score_desc [((1 : ℝ)/2, wpA)] = [((1 : ℝ)/2, wpA)] := by
    simp [List.insertionSort, List.orderedInsert]
  constructor
  · simp only [rank_and_truncate, hsort, List.head?_cons]
    rw [if_neg (by norm_num : ¬((1 : ℝ)/2 = 1))]
    rfl
  · simp only [claimed_high_relevance_count, hsort, List.takeWhile_cons]
    rw [decide_eq_false (by norm_num : ¬((1 : ℝ) ≤ (1 : ℝ)/2))]
    rfl

/-- C1 amended: the ranking stage truncates the sorted list to
max(size of the exact-1.0 prefix, requested bound) when the top score is
exactly 1.0, and to the requested bound otherwise; in both cases the
result length is that cutoff capped by the number of scored documents, so
below the threshold up to the requested bound documents are returned,
never the empty set forced by the claim. -/
theorem rank_and_truncate_counts (scored : List (ℝ × Webpage)) (num : ℕ) :
    (∀ p, (List.insertionSort score_desc scored).head? = some p → p.1 = 1 →
      (rank_and_truncate scored num).length =
        min (max ((List.insertionSort score_desc scored).takeWhile
          (fun q => decide (q.1 = (1 : ℝ)))).length num) scored.length) ∧
    (∀ p, (List.insertionSort score_desc scored).head? = some p → p.1 ≠ 1 →
      (rank_and_truncate scored num).length = min num scored.length) := by
  constructor
  · intro p hp h1
    simp only [rank_and_truncate, hp]
    rw [if_pos h1]
    rw [List.length_take, List.length_insertionSort]
  · intro p hp h1
    simp only [rank_and_truncate, hp]
    rw [if_neg h1]
    rw [List.length_take, List.length_insertionSort]

/-- Witness for C1 amended: two documents scoring exactly 1.0 with
requested bound 1; the code returns both. -/
theorem rank_and_truncate_counts_witness :
    (rank_and_truncate [((1 : ℝ), wpA), ((1 : ℝ), wpB)] 1).length =
      min (max ((List.insertionSort score_desc [((1 : ℝ), wpA), ((1 : ℝ), wpB)]).takeWhile
        (fun q => decide (q.1 = (1 : ℝ)))).length 1) 2 := by
  have hsort : List.insertionSort score_desc [((1 : ℝ), wpA), ((1 : ℝ), wpB)]
      = [((1 : ℝ), wpA), ((1 : ℝ), wpB)] := by
    simp [List.insertionSort, List.orderedInsert, score_desc]
  have := (rank_and_truncate_counts [((1 : ℝ), wpA), ((1 : ℝ), wpB)] 1).1 ((1 : ℝ), wpA)
    (by rw [hsort]; rfl) rfl
  simpa using this

/-- C2 counterexample: two documents scoring exactly 1.0, the first with a
host absent from the authority table and the second ranked 1; the final
ordering keeps the unranked document first, so the site-authority
tie-break claimed for the high-relevance portion does not happen. -/
theorem ranking_ignores_authority_cex :
    ¬ claimed_tie_break_ordered hostId domainsB
        (rank_and_truncate [((1 : ℝ), wpA), ((1 : ℝ), wpB)] 10) := by
  have hsort : List.insertionSort score_desc [((1 : ℝ), wpA), ((1 : ℝ), wpB)]
      = [((1 : ℝ), wpA), ((1 : ℝ), wpB)] := by
    simp [List.insertionSort, List.orderedInsert, score_desc]
  have hout : rank_and_truncate [((1 : ℝ), wpA), ((1 : ℝ), wpB)] 10
      = [((1 : ℝ), wpA), ((1 : ℝ), wpB)] := by
    simp only [rank_and_truncate, hsort, List.head?_cons, if_true]
    exact List.take_of_length_le (le_trans (by norm_num) (le_max_right _ 10))
  rw [hout]
  intro hord
  have hrel := (List.pairwise_cons.mp hord).1 ((1 : ℝ), wpB) (by simp)
  have h2 := hrel (le_refl 1) (le_refl 1) rfl
  rw [show site_rank hostId domainsB wpA = none from by decide,
      show site_rank hostId domainsB wpB = some 1 from by decide] at h2
  exact h2

/-- C2 amended: the final ordering sorts by score descending only; the
ranking stage never consults the site-authority table (its type takes no
authority input), so every truncated result list is sorted by score and
equal-score documents keep the tie order of the sort, not an
authority-based order. -/
theorem rank_and_truncate_sorted_by_score (scored : List (ℝ × Webpage)) (num : ℕ) :
    (rank_and_truncate scored num).Sorted score_desc := by
  simp only [rank_and_truncate]
  exact List.Pairwise.sublist (List.take_sublist _ _) (List.sorted_insertionSort score_desc scored)

/-- C8 counterexample: the live formatter of main.rs emits the defaulted
numeric rank 0 for a host absent from the authority table, not an explicit
unranked marker. -/
theorem format_result_rank_defaulted_cex :
    (format_result_main hostId 0 wpA domainsB false).top_website_rank = some 0 ∧
    (format_result_main hostId 0 wpA domainsB false).top_website_rank ≠ none := by
  have h : (format_result_main hostId 0 wpA domainsB false).top_website_rank = some 0 := by
    decide
  exact ⟨h, by rw [h]; simp⟩

/-- C8 amended: the result_formatter.rs revision emits the explicit
unranked marker (null) for an absent host, while the live main.rs
formatter defaults the rank to the numeric 0; for both, link fields are
present in the output iff link enrichment was requested and the
corresponding link data is present. -/
theorem format_result_fields (hx : String → Option String) (score : ℝ) (w : Webpage)
    (tbl : List (String × ℕ)) (inc : Bool) :
    (site_rank hx tbl w = none → (format_result_fmt hx score w tbl inc).top_website_rank = none) ∧
    (site_rank hx tbl w = none →
      (format_result_main hx score w tbl inc).top_website_rank = some 0) ∧
    (∀ c, (format_result_main hx score w tbl inc).links_to_count = some c ↔
      inc = true ∧ w.links_to_count = some c) ∧
    (∀ lf, (format_result_main hx score w tbl inc).links_from = some lf ↔
      inc = true ∧ w.links_from = some lf) := by
  refine ⟨fun h => ?_, fun h => ?_, fun c => ?_, fun lf => ?_⟩
  · simp [format_result_fmt, h]
  · simp [format_result_main, h]
  · cases inc <;> simp [format_result_main]
  · cases inc <;> simp [format_result_main]

/-- Witness for C8 amended at a concrete unranked document, discharging
the absent-host antecedents. -/
theorem format_result_fields_witness :
    (format_result_fmt hostId 0 wpA domainsB true).top_website_rank = none ∧
    (format_result_main hostId 0 wpA domainsB true).top_website_rank = some 0 :=
  ⟨(format_result_fields hostId 0 wpA domainsB true).1 (by decide),
   (format_result_fields hostId 0 wpA domainsB true).2.1 (by decide)⟩

/-- Every contribution pair collected for a well-formed document and a
nonnegative query vector has nonnegative components. -/
theorem contribs_nonneg (N : ℤ) (w : Webpage) (qtfs : List (String × ℚ))
    (hwc : 1 ≤ w.word_count) (hocc : ∀ p ∈ w.keywords, 0 ≤ p.2)
    (hq : ∀ p ∈ qtfs, 0 ≤ p.2) :
    ∀ p ∈ contribs N w.word_count w.keywords qtfs, 0 ≤ p.1 ∧ 0 ≤ p.2 := by
  intro p hp
  unfold contribs at hp
  rw [List.mem_filterMap] at hp
  obtain ⟨a, ha, hfa⟩ := hp
  cases hlk : qtfs.lookup a.1.word with
  | none =>
    simp only [hlk] at hfa
    exact Option.noConfusion hfa
  | some qtf =>
    simp only [hlk] at hfa
    obtain rfl := Option.some.inj hfa
    have hidf : 0 ≤ idf N a.1.documents_containing_word := le_max_right _ _
    have hqtf : (0 : ℝ) ≤ (qtf : ℝ) := by exact_mod_cast lookup_nonneg hq hlk
    have htf : (0 : ℝ) ≤ (a.2 : ℝ) / (w.word_count : ℝ) := by
      apply div_nonneg
      · exact_mod_cast hocc a ha
      · exact_mod_cast le_trans zero_le_one hwc
    exact ⟨mul_nonneg hqtf hidf, mul_nonneg htf hidf⟩

/-- The similarity of a well-formed document against a nonnegative query
vector always lies in the unit interval in the exact model. -/
theorem calculate_similarity_mem_unit (w : Webpage) (qtfs : List (String × ℚ)) (N : ℤ)
    (hwc : 1 ≤ w.word_count) (hocc : ∀ p ∈ w.keywords, 0 ≤ p.2)
    (hq : ∀ p ∈ qtfs, 0 ≤ p.2) :
    0 ≤ calculate_similarity w qtfs N ∧ calculate_similarity w qtfs N ≤ 1 := by
  have hnn := contribs_nonneg N w qtfs hwc hocc hq
  simp only [calculate_similarity]
  split_ifs with hif
  · obtain ⟨hq0, hd0⟩ := hif
    have hdot : 0 ≤ ((contribs N w.word_count w.keywords qtfs).map (fun p => p.1 * p.2)).sum := by
      apply List.sum_nonneg
      intro x hx
      rw [List.mem_map] at hx
      obtain ⟨p, hp, rfl⟩ := hx
      exact mul_nonneg (hnn p hp).1 (hnn p hp).2
    constructor
    · exact div_nonneg hdot (le_of_lt (mul_pos hq0 hd0))
    · rw [div_le_one (mul_pos hq0 hd0)]
      exact list_inner_le_sqrt_mul_sqrt _
  · exact ⟨le_refl 0, zero_le_one⟩

/-- C5: for every well-formed candidate document and nonnegative query
vector, the similarity score lies in [0, 1] when they share a term with
positive idf, and the score is exactly 0 when the document contains no
term present in the query vector. -/
theorem calculate_similarity_range (w : Webpage) (qtfs : List (String × ℚ)) (N : ℤ)
    (hwc : 1 ≤ w.word_count) (hocc : ∀ p ∈ w.keywords, 0 ≤ p.2)
    (hq : ∀ p ∈ qtfs, 0 ≤ p.2) :
    ((∃ p ∈ w.keywords, (qtfs.lookup p.1.word).isSome ∧
        0 < idf N p.1.documents_containing_word) →
      0 ≤ calculate_similarity w qtfs N ∧ calculate_similarity w qtfs N ≤ 1) ∧
    ((∀ p ∈ w.keywords, qtfs.lookup p.1.word = none) → calculate_similarity w qtfs N = 0) := by
  constructor
  · intro _
    exact calculate_similarity_mem_unit w qtfs N hwc hocc hq
  · intro hnone
    simp only [calculate_similarity]
    have hc : contribs N w.word_count w.keywords qtfs = [] := by
      unfold contribs
      rw [List.filterMap_eq_nil_iff]
      intro a ha
      rw [hnone a ha]
    rw [hc]
    simp

/-- Witness for C5 at the worked example of the spec: corpus of 10
documents, query vector for run, a document of 100 words containing run 5
times with document frequency 3. -/
theorem calculate_similarity_range_witness :
    (∃ p ∈ wpRun.keywords, (([("run", (1 : ℚ))].lookup p.1.word).isSome) ∧
        0 < idf 10 p.1.documents_containing_word) ∧
    (0 ≤ calculate_similarity wpRun [("run", 1)] 10 ∧
      calculate_similarity wpRun [("run", 1)] 10 ≤ 1) := by
  have hex : ∃ p ∈ wpRun.keywords, (([("run", (1 : ℚ))].lookup p.1.word).isSome) ∧
      0 < idf 10 p.1.documents_containing_word := by
    refine ⟨(⟨7, "run", 3⟩, 5), by simp [wpRun], by decide, ?_⟩
    unfold idf
    apply lt_max_of_lt_left
    apply Real.log_pos
    push_cast
    norm_num
  exact ⟨hex,
    (calculate_similarity_range wpRun [("run", 1)] 10 (by decide) (by decide) (by decide)).1 hex⟩

/-- Under the preconditions of C10 every keyword passes the checked tf and
idf, so the checked contribution list is defined and agrees with the
unchecked one. -/
theorem contribs_checked_eq (N wc : ℤ) (kws : List (Keyword × ℤ)) (qtfs : List (String × ℚ))
    (hN : 1 ≤ N) (hwc : 1 ≤ wc) (hdf : ∀ p ∈ kws, 1 ≤ p.1.documents_containing_word) :
    contribs_checked N wc kws qtfs = some (contribs N wc kws qtfs) := by
  induction kws with
  | nil => rfl
  | cons p rest ih =>
    have hwcpos : (0 : ℝ) < (wc : ℝ) := by exact_mod_cast lt_of_lt_of_le zero_lt_one hwc
    have htf : tf_checked p.2 wc = some ((p.2 : ℝ) / (wc : ℝ)) := by
      unfold tf_checked
      rw [if_neg (ne_of_gt hwcpos)]
    have hidf : idf_checked N p.1.documents_containing_word
        = some (idf N p.1.documents_containing_word) := by
      unfold idf_checked
      rw [if_pos]
      apply div_pos
      · exact_mod_cast lt_of_lt_of_le zero_lt_one hN
      · exact_mod_cast lt_of_lt_of_le zero_lt_one (hdf p (by simp))
    have hrest := ih (fun x hx => hdf x (by simp [hx]))
    simp only [contribs_checked, htf, hidf, hrest, contribs, List.filterMap_cons]
    cases hlk : qtfs.lookup p.1.word <;> simp [hlk, contribs]

/-- C10: under the preconditions word_count at least 1, every document
frequency at least 1 and corpus count at least 1, the checked similarity
is defined and equals the unchecked similarity, i.e. no NaN-prone f32
operation occurs, so the unwrap in the score sort comparator of the
search handler cannot panic on these scores. -/
theorem calculate_similarity_checked_eq (w : Webpage) (qtfs : List (String × ℚ)) (N : ℤ)
    (hN : 1 ≤ N) (hwc : 1 ≤ w.word_count)
    (hdf : ∀ p ∈ w.keywords, 1 ≤ p.1.documents_containing_word) :
    calculate_similarity_checked w qtfs N = some (calculate_similarity w qtfs N) := by
  unfold calculate_similarity_checked calculate_similarity
  rw [contribs_checked_eq N w.word_count w.keywords qtfs hN hwc hdf]

/-- Witness for C10 at the concrete worked example. -/
theorem calculate_similarity_checked_eq_witness :
    calculate_similarity_checked wpRun [("run", 1)] 10
      = some (calculate_similarity wpRun [("run", 1)] 10) :=
  calculate_similarity_checked_eq wpRun [("run", 1)] 10 (by decide) (by decide) (by decide)

end SearchEngineApi
